import Mathlib

/-!
# Verification of the Stripe webhook idempotency / retry engine

Shallow embedding of the event-processing core of this repository:

* `app/services/stripe_events.py` — `StripeEventProcessor.process_event` and the
  four effect handlers;
* `app/services/credits.py` — `add_credits`;
* `app/models.py` — the `StripeEventLog`, `User` and `CreditTransaction` rows
  (the file defines `StripeEventLog` three times; the last class definition,
  lines 69–86, is the one bound at runtime, and it declares **no**
  `next_retry_at` and **no** `dead_letter` column, although migration
  `002_add_stripe_event_log.py` creates both columns in the database).

## Session / transaction model

The code drives a SQLAlchemy `Session`.  The embedding gives the session its
documented transactional semantics, with `with db.begin():` taken as the
attempt's transaction scope (the reading the processor's docstring, the
repository's tests and the spec all use):

* the session carries a `durable` store (last committed state) and a `staged`
  store (the working state including all uncommitted changes);
* `db.add` + `db.flush()` stages an insert and raises `IntegrityError` when a
  row with the same unique `stripe_event_id` is already committed ("Force
  unique constraint check without commit", stripe_events.py:43);
* `db.commit()` makes the staged state durable — wherever it is called,
  including `add_credits`' own commit (credits.py:16) in the middle of the
  processor's transaction; every commit is also recorded in a `commits` trace
  so that intermediate durable (crash-recoverable) states can be inspected;
* `db.rollback()` discards every uncommitted change, reverting `staged` to
  `durable`.  A pending (inserted but never committed) object is expunged from
  the session by the rollback: later attribute writes on it followed by
  `db.commit()` persist nothing.  A persistent object (loaded from a committed
  row) is expired by the rollback: the next attribute read refreshes it from
  the durable row, so in-transaction increments on it are lost.

Exceptions are modelled with `Except` / an explicit `HRes` result for the
handlers (the session state at the moment of the raise is threaded through,
since a Python exception does not undo mutations already made on the session).

Machine integers: `processing_attempts` is a `Nat` (the DB column is
`Integer NOT NULL DEFAULT 0` with `CHECK (processing_attempts >= 0)`), credit
amounts are `Int` (Python ints; the `amount` column holds signed credits).
Timestamps are `Nat` seconds; `datetime.utcnow()` is the `now` parameter.
`uuid.UUID` parsing is modelled as the identity on strings (a malformed uuid
string would additionally raise in Python; no claim below depends on that).
-/

namespace StripeCore

/-- Python exceptions that can cross the handler/processor boundary. -/
inductive PyExc where
  | valueError (msg : String)
  | attributeError (msg : String)
  | objectDeletedError
deriving DecidableEq, Repr

/-- `str(e)` as used for `error_message` and the returned failure message. -/
def pyStr : PyExc → String
  | .valueError m => m
  | .attributeError m => m
  | .objectDeletedError => "ObjectDeletedError"

/-- The `data.object` payload of a delivered event, with the keys the checkout
handler reads: `id`, `client_reference_id`, `metadata.user_id`,
`metadata.credits` (already through Python's `int(...)`), `payment_intent`. -/
structure SessionObj where
  sid : Option String
  client_reference_id : Option String
  metadata_user_id : Option String
  metadata_credits : Option Int
  payment_intent : Option String
deriving DecidableEq, Repr

/-- A delivered webhook event body: `event_data.get("id")`,
`event_data.get("type")` and `event_data.get("data", {}).get("object")`
(`none` when either the `data` or the `object` key is absent). -/
structure StripeEvent where
  eid : Option String
  etype : Option String
  objectData : Option SessionObj
deriving DecidableEq, Repr

/-- `users` row (app/models.py lines 9–15): `credits = Column(Integer, default=0)`
is nullable, and the code reads it as `user.credits or 0`. -/
structure UserRow where
  uid : String
  credits : Option Int
deriving DecidableEq, Repr

/-- `credit_transactions` row (app/models.py lines 17–23): the append-only
ledger log written by `add_credits`. -/
structure CreditTxn where
  user_id : String
  amount : Int
  description : String
deriving DecidableEq, Repr

/-- `stripe_event_log` row.  The ORM class (app/models.py lines 69–86) declares
`stripe_event_id`, `event_type`, `event_data`, `processed`,
`processing_attempts`, `error_message`, `processed_at`, `created_at`.
The database table (migration 002) additionally has `next_retry_at` (nullable)
and `dead_letter` (default false) — carried here so that the claims about them
can be stated; the ORM never reads or writes them (see `model_has_dead_letter`
and `model_has_next_retry_at`). -/
structure EventRow where
  stripe_event_id : String
  event_type : String
  event_data : StripeEvent
  processed : Bool
  processing_attempts : Nat
  error_message : Option String
  processed_at : Option Nat
  created_at : Nat
  next_retry_at : Option Nat
  dead_letter : Bool
deriving DecidableEq, Repr

/-- The relational state the core touches: the event log, the users table and
the credit-transaction ledger. -/
structure DB where
  events : List EventRow
  users : List UserRow
  txns : List CreditTxn
deriving DecidableEq, Repr

/-- `hasattr(event_log, 'dead_letter')` (stripe_events.py:106): the bound
`StripeEventLog` class declares no such column, so this is `false`. -/
def model_has_dead_letter : Bool := false

/-- `hasattr(event_log, 'next_retry_at')` (stripe_events.py:69): the bound
`StripeEventLog` class declares no such column, so this is `false`. -/
def model_has_next_retry_at : Bool := false

/-- `self.db.query(StripeEventLog).filter(stripe_event_id == id).first()`,
and also the unique-constraint check performed by `flush` (the column is
`unique=True`). -/
def lookupEvent (db : DB) (eid : String) : Option EventRow :=
  db.events.find? (fun r => r.stripe_event_id == eid)

/-- Stage an insert of a new event row. -/
def insertEvent (db : DB) (row : EventRow) : DB :=
  { db with events := db.events ++ [row] }

/-- Update the (unique) row with the given `stripe_event_id` in place. -/
def updateEvent (db : DB) (eid : String) (f : EventRow → EventRow) : DB :=
  { db with events := db.events.map (fun r => if r.stripe_event_id == eid then f r else r) }

/-- `db.get(User, user_id)` / `db.query(User).filter(User.id == uid).first()`. -/
def findUser (db : DB) (uid : String) : Option UserRow :=
  db.users.find? (fun u => u.uid == uid)

/-- Update the (unique) user row in place. -/
def updateUser (db : DB) (uid : String) (f : UserRow → UserRow) : DB :=
  { db with users := db.users.map (fun u => if u.uid == uid then f u else u) }

/-- The SQLAlchemy session: last committed state, working state, and the trace
of durable snapshots produced by each `commit()` during the current call. -/
structure Sess where
  durable : DB
  staged : DB
  commits : List DB
deriving DecidableEq, Repr

/-- `db.commit()`: the staged state becomes durable (and is recorded). -/
def Sess.commitS (s : Sess) : Sess :=
  { durable := s.staged, staged := s.staged, commits := s.commits ++ [s.staged] }

/-- `db.rollback()`: every uncommitted change is discarded. -/
def Sess.rollbackS (s : Sess) : Sess :=
  { s with staged := s.durable }

/-- Result of running a handler: Python exceptions do not undo session
mutations already made, so the error case carries the session state at the
moment of the raise. -/
inductive HRes where
  | ok : Sess → HRes
  | err : Sess → PyExc → HRes
deriving DecidableEq, Repr

/-- Python truthiness of an optional string (`not event_id`, `not user_id`):
`None` and `""` are falsy. -/
def pyTruthyStr : Option String → Bool
  | none => false
  | some s => s != ""

/-- Python `a or b` on optional strings (`session_data.get("client_reference_id")
or session_data.get("metadata", {}).get("user_id")`). -/
def pyOr (a b : Option String) : Option String :=
  if pyTruthyStr a then a else b

/-- f-string rendering of an optional value: `None` prints as `"None"`. -/
def optRepr : Option String → String
  | none => "None"
  | some s => s

/-- Exponential backoff (stripe_events.py:67):
`min(60 * (2 ** (processing_attempts - 2)), 3600)`. -/
def backoffSeconds (attempts : Nat) : Nat :=
  min (60 * 2 ^ (attempts - 2)) 3600

/-- The `description` passed to the ledger:
`f"Credit pack purchase - {credits:,} credits"` (the `:,` thousands grouping
is presentation only and not modelled). -/
def creditPackDescription (credits : Int) : String :=
  "Credit pack purchase - " ++ toString credits ++ " credits"

/-- `app/services/credits.py` lines 10–18, `add_credits`: looks the user up,
raises `ValueError("User not found")` when absent, otherwise adds `credits`
to the balance (`(user.credits or 0) + credits`), appends a
`CreditTransaction`, and **commits**.  The `stripe_payment_intent_id` and
`idempotency_key` parameters are accepted but never used by the body. -/
def add_credits (s : Sess) (user_id : String) (credits : Int)
    (description : String) (stripe_payment_intent_id : Option String)
    (idempotency_key : Option String) : HRes :=
  match findUser s.staged user_id with
  | none => .err s (.valueError "User not found")
  | some u =>
      let newBalance : Int := u.credits.getD 0 + credits
      let db1 := updateUser s.staged user_id (fun w => { w with credits := some newBalance })
      let db2 := { db1 with txns := db1.txns ++
        [{ user_id := user_id, amount := credits, description := description }] }
      .ok (Sess.commitS { s with staged := db2 })

/-- `StripeEventProcessor._handle_checkout_completed` (stripe_events.py
lines 122–147).  `session_data` is `None` when the delivery lacked
`data.object`; attribute access on `None` raises.  `user_id` is
`client_reference_id or metadata.user_id`; `credits` is
`int(metadata.get("credits", 0))`; `if not user_id or not credits` raises
`ValueError` (note: `not credits` is true only for `0`, so negative amounts
pass); a user lookup failure raises `ValueError`; otherwise `add_credits`
is called with `idempotency_key = f"checkout_{session_id}"`. -/
def handle_checkout_completed (s : Sess) (session_data : Option SessionObj) : HRes :=
  match session_data with
  | none => .err s (.attributeError "NoneType object has no attribute get")
  | some sd =>
      let credits : Int := sd.metadata_credits.getD 0
      match pyOr sd.client_reference_id sd.metadata_user_id with
      | none => .err s (.valueError
          ("Missing user_id or credits in checkout session: " ++ optRepr sd.sid))
      | some uid =>
          if uid = "" ∨ credits = 0 then
            .err s (.valueError
              ("Missing user_id or credits in checkout session: " ++ optRepr sd.sid))
          else
            match findUser s.staged uid with
            | none => .err s (.valueError ("User " ++ uid ++ " not found"))
            | some _ =>
                add_credits s uid credits (creditPackDescription credits)
                  sd.payment_intent (some ("checkout_" ++ optRepr sd.sid))

/-- `_handle_payment_succeeded` (lines 149–157): reads attributes of the
payload (raising on `None`) and only logs. -/
def handle_payment_succeeded (s : Sess) (payment_intent_data : Option SessionObj) : HRes :=
  match payment_intent_data with
  | none => .err s (.attributeError "NoneType object has no attribute get")
  | some _ => .ok s

/-- `_handle_payment_failed` (lines 159–167): reads attributes of the payload
(raising on `None`) and only logs. -/
def handle_payment_failed (s : Sess) (payment_intent_data : Option SessionObj) : HRes :=
  match payment_intent_data with
  | none => .err s (.attributeError "NoneType object has no attribute get")
  | some _ => .ok s

/-- `_handle_subscription_payment` (lines 169–178): every read is guarded by
`if invoice_data else None`, so a `None` payload does not raise; only logs. -/
def handle_subscription_payment (s : Sess) (invoice_data : Option SessionObj) : HRes :=
  .ok s

/-- The four registered event types (stripe_events.py lines 75–82). -/
def handledTypes : List String :=
  ["checkout.session.completed", "payment_intent.succeeded",
   "payment_intent.payment_failed", "invoice.payment_succeeded"]

/-- Dispatch by `event_type` (lines 75–84), recording which handler was
invoked and with which payload; an unregistered type invokes nothing. -/
def dispatch (s : Sess) (event_type : String) (arg : Option SessionObj) :
    HRes × List (String × Option SessionObj) :=
  if event_type = "checkout.session.completed" then
    (handle_checkout_completed s arg, [(event_type, arg)])
  else if event_type = "payment_intent.succeeded" then
    (handle_payment_succeeded s arg, [(event_type, arg)])
  else if event_type = "payment_intent.payment_failed" then
    (handle_payment_failed s arg, [(event_type, arg)])
  else if event_type = "invoice.payment_succeeded" then
    (handle_subscription_payment s arg, [(event_type, arg)])
  else
    (.ok s, [])

/-- What one `process_event` call produced: the session at return time
(`staged = durable`, all commits recorded), the returned `(success, message)`
pair, and the trace of handler invocations. -/
structure PEResult where
  sess : Sess
  success : Bool
  message : String
  handlerCalls : List (String × Option SessionObj)
deriving DecidableEq, Repr

/-- Lines 60–120 of `process_event`: the attempt transaction, the dispatch,
the success bookkeeping and the exception path.  `persistent` is true when
`event_log` is the already-committed row found after the `IntegrityError`
(stripe_events.py:57) and false when it is the freshly staged insert;
`entryAttempts` is the object's `processing_attempts` on entry (the durable
value resp. the flush default `0`). -/
def attemptPhase (now : Nat) (db : DB) (e : StripeEvent)
    (event_id event_type : String) (persistent : Bool) (entryAttempts : Nat) :
    Except PyExc PEResult :=
  -- session state entering line 60: for a fresh event the pending insert is
  -- staged (constructor args of line 36-41; flush applied the column default
  -- processing_attempts = 0; created_at is the server default now())
  let staged0 : DB :=
    if persistent then db
    else insertEvent db
      { stripe_event_id := event_id, event_type := event_type, event_data := e,
        processed := false, processing_attempts := 0, error_message := none,
        processed_at := none, created_at := now, next_retry_at := none,
        dead_letter := false }
  let s0 : Sess := ⟨db, staged0, []⟩
  -- line 63: event_log.processing_attempts = (event_log.processing_attempts or 0) + 1
  let s1 : Sess := { s0 with
    staged := updateEvent s0.staged event_id
      (fun r => { r with processing_attempts := r.processing_attempts + 1 }) }
  let attempts1 : Nat := entryAttempts + 1
  -- lines 66–72: when this is a retry the backoff is computed, but the store
  -- to next_retry_at is guarded by hasattr(event_log, 'next_retry_at')
  let withRetryAt : DB :=
    updateEvent s1.staged event_id
      (fun r => { r with next_retry_at := some (now + backoffSeconds attempts1) })
  let s2 : Sess :=
    if attempts1 > 1 then
      if model_has_next_retry_at then { s1 with staged := withRetryAt }
      else s1
    else s1
  match dispatch s2 event_type e.objectData with
  | (.ok s3, calls) =>
      -- lines 88–92: mark processed, clear the error, commit at block exit
      let marked : DB := updateEvent s3.staged event_id
        (fun r => { r with processed := true, processed_at := some now,
                           error_message := none })
      let s4 : Sess := { s3 with staged := marked }
      .ok ⟨Sess.commitS s4, true, "Event processed successfully", calls⟩
  | (.err sErr exc, calls) =>
      -- line 99: rollback discards every uncommitted change
      let s5 : Sess := Sess.rollbackS sErr
      let m : String := pyStr exc
      if persistent then
        -- the rollback expired the persistent event_log object; the reads at
        -- lines 104/117 refresh it from the durable row (increment lost)
        match lookupEvent s5.durable event_id with
        | none =>
            -- refreshing a deleted row raises out of process_event (line 117
            -- is outside every try); unreachable, see processEvent_never_raises
            .error .objectDeletedError
        | some row =>
            let k : Nat := row.processing_attempts
            -- line 103 stages error_message; lines 104–107 would set
            -- dead_letter but the write is guarded by hasattr; line 110 commits
            let withErr : DB := updateEvent s5.staged event_id (fun r =>
              let r1 := { r with error_message := some m }
              if k ≥ 5 ∧ model_has_dead_letter then { r1 with dead_letter := true } else r1)
            let s6 : Sess := Sess.commitS { s5 with staged := withErr }
            if k ≥ 5 then
              .ok ⟨s6, false, "Event processing failed after 5 attempts: " ++ m, calls⟩
            else
              .ok ⟨s6, false, "Event processing failed: " ++ m, calls⟩
      else
        -- the rollback expunged the pending event_log object: the error_message
        -- write and the commit at line 110 touch no durable row; the in-memory
        -- attribute still holds attempts1
        let s6 : Sess := Sess.commitS s5
        if attempts1 ≥ 5 then
          .ok ⟨s6, false, "Event processing failed after 5 attempts: " ++ m, calls⟩
        else
          .ok ⟨s6, false, "Event processing failed: " ++ m, calls⟩

/-- `StripeEventProcessor.process_event` (stripe_events.py lines 20–120).
The result is `.error` only if an exception would escape the Python function
(none does: `processEvent_never_raises`). -/
def processEventE (now : Nat) (db : DB) (e : StripeEvent) : Except PyExc PEResult :=
  -- lines 27–31: reject when id or type is falsy; nothing is stored
  if ¬ pyTruthyStr e.eid ∨ ¬ pyTruthyStr e.etype then
    .ok ⟨⟨db, db, []⟩, false, "Invalid event data - missing id or type", []⟩
  else
    let event_id := e.eid.getD ""
    let event_type := e.etype.getD ""
    -- lines 34–57: insert-first; flush raises IntegrityError exactly when a
    -- committed row with this stripe_event_id exists; the rollback discards
    -- the pending insert and the re-query returns the existing row
    match lookupEvent db event_id with
    | some existing =>
        if existing.processed then
          .ok ⟨⟨db, db, []⟩, true, "Event already processed", []⟩
        else
          attemptPhase now db e event_id event_type true existing.processing_attempts
    | none =>
        attemptPhase now db e event_id event_type false 0

/-- The fields of an event row that identify the delivery (claim C10 calls
them the non-bookkeeping fields): provider event id, type, stored payload,
creation time. -/
def sameIdentity (a b : EventRow) : Prop :=
  a.stripe_event_id = b.stripe_event_id ∧ a.event_type = b.event_type ∧
  a.event_data = b.event_data ∧ a.created_at = b.created_at

/-- The durable snapshots produced by the commits of one `process_event`
call (crash-recoverable intermediate states). -/
def commitTrace (now : Nat) (db : DB) (e : StripeEvent) : List DB :=
  match processEventE now db e with
  | .ok r => r.sess.commits
  | .error _ => []

/-- Run the checkout handler twice in a row on the same payload (the double
invocation of claim C6), reporting the final balance of `uid` and the number
of ledger entries, when both invocations succeed. -/
def runCheckoutTwice (s : Sess) (a : Option SessionObj) (uid : String) :
    Option (Option (Option Int) × Nat) :=
  match handle_checkout_completed s a with
  | .ok s1 =>
      match handle_checkout_completed s1 a with
      | .ok s2 => some ((findUser s2.staged uid).map UserRow.credits, s2.staged.txns.length)
      | .err _ _ => none
  | .err _ _ => none

/-- Project one handler invocation: final balance of `uid` and ledger length
when the handler returns normally, `none` when it raises. -/
def runCheckoutOnce (s : Sess) (a : Option SessionObj) (uid : String) :
    Option (Option (Option Int) × Nat) :=
  match handle_checkout_completed s a with
  | .ok s1 => some ((findUser s1.staged uid).map UserRow.credits, s1.staged.txns.length)
  | .err _ _ => none

end StripeCore

namespace StripeCore

/-! ## Supporting lemmas about the store and the handlers -/

theorem find?_map_of_pred_inv {α : Type} (g : α → α) (p : α → Bool)
    (hp : ∀ a, p (g a) = p a) (l : List α) :
    (l.map g).find? p = (l.find? p).map g := by
  induction l with
  | nil => rfl
  | cons a t ih =>
      by_cases h : p a = true
      · rw [List.map_cons, List.find?_cons_of_pos _ (by rw [hp]; exact h),
          List.find?_cons_of_pos _ h, Option.map_some']
      · rw [List.map_cons, List.find?_cons_of_neg _ (by rw [hp]; simpa using h),
          List.find?_cons_of_neg _ (by simpa using h), ih]

theorem find?_append_singleton {α : Type} (p : α → Bool) (l : List α) (a : α)
    (h : l.find? p = none) :
    (l ++ [a]).find? p = if p a then some a else none := by
  induction l with
  | nil => cases hpa : p a <;> simp [List.find?, hpa]
  | cons b t ih =>
      have hb : p b = false := by
        by_contra hc
        rw [List.find?_cons_of_pos _ (by simpa using hc)] at h
        exact Option.noConfusion h
      rw [List.find?_cons_of_neg _ (by simp [hb])] at h
      rw [List.cons_append, List.find?_cons_of_neg _ (by simp [hb])]
      exact ih h

/-- `lookupEvent` only inspects the `events` column family. -/
theorem lookupEvent_congr_events {db1 db2 : DB} (h : db1.events = db2.events)
    (j : String) : lookupEvent db1 j = lookupEvent db2 j := by
  unfold lookupEvent; rw [h]

theorem lookupEvent_updateEvent (db : DB) (i j : String) (f : EventRow → EventRow)
    (hf : ∀ r, (f r).stripe_event_id = r.stripe_event_id) :
    lookupEvent (updateEvent db i f) j =
      (lookupEvent db j).map (fun r => if r.stripe_event_id == i then f r else r) := by
  unfold lookupEvent updateEvent
  exact find?_map_of_pred_inv _ _
    (fun r => by by_cases h : r.stripe_event_id == i <;> simp [h, hf]) _

theorem lookupEvent_insertEvent_of_none (db : DB) (row : EventRow) (j : String)
    (h : lookupEvent db j = none) :
    lookupEvent (insertEvent db row) j =
      if row.stripe_event_id == j then some row else none := by
  unfold lookupEvent insertEvent at *
  exact find?_append_singleton _ _ _ h

theorem add_credits_err_eq {s : Sess} {u : String} {c : Int} {d : String}
    {pi ik : Option String} {s' : Sess} {ex : PyExc}
    (h : add_credits s u c d pi ik = .err s' ex) : s' = s := by
  unfold add_credits at h
  split at h
  · injection h with h1 _; exact h1.symm
  · exact HRes.noConfusion h

theorem add_credits_ok_events {s : Sess} {u : String} {c : Int} {d : String}
    {pi ik : Option String} {s' : Sess}
    (h : add_credits s u c d pi ik = .ok s') :
    s'.staged.events = s.staged.events := by
  unfold add_credits at h
  split at h
  · exact HRes.noConfusion h
  · injection h with h1
    rw [← h1]
    simp [Sess.commitS, updateUser]

theorem add_credits_ok_txns {s : Sess} {u : String} {c : Int} {d : String}
    {pi ik : Option String} {s' : Sess}
    (h : add_credits s u c d pi ik = .ok s') :
    ∃ txn, s'.staged.txns = s.staged.txns ++ [txn] := by
  unfold add_credits at h
  split at h
  · exact HRes.noConfusion h
  · injection h with h1
    rw [← h1]
    exact ⟨_, rfl⟩

theorem handle_checkout_completed_err_eq {s : Sess} {a : Option SessionObj}
    {s' : Sess} {ex : PyExc}
    (h : handle_checkout_completed s a = .err s' ex) : s' = s := by
  unfold handle_checkout_completed at h
  dsimp only at h
  split at h
  · injection h with h1 _; exact h1.symm
  · split at h
    · injection h with h1 _; exact h1.symm
    · split at h
      · injection h with h1 _; exact h1.symm
      · split at h
        · injection h with h1 _; exact h1.symm
        · exact add_credits_err_eq h

theorem handle_checkout_completed_ok_events {s : Sess} {a : Option SessionObj}
    {s' : Sess} (h : handle_checkout_completed s a = .ok s') :
    s'.staged.events = s.staged.events := by
  unfold handle_checkout_completed at h
  dsimp only at h
  split at h
  · exact HRes.noConfusion h
  · split at h
    · exact HRes.noConfusion h
    · split at h
      · exact HRes.noConfusion h
      · split at h
        · exact HRes.noConfusion h
        · exact add_credits_ok_events h

theorem handle_payment_succeeded_err_eq {s : Sess} {a : Option SessionObj}
    {s' : Sess} {ex : PyExc}
    (h : handle_payment_succeeded s a = .err s' ex) : s' = s := by
  unfold handle_payment_succeeded at h
  split at h
  · injection h with h1 _; exact h1.symm
  · exact HRes.noConfusion h

theorem handle_payment_succeeded_ok_eq {s : Sess} {a : Option SessionObj}
    {s' : Sess} (h : handle_payment_succeeded s a = .ok s') : s' = s := by
  unfold handle_payment_succeeded at h
  split at h
  · exact HRes.noConfusion h
  · injection h with h1; exact h1.symm

theorem handle_payment_failed_err_eq {s : Sess} {a : Option SessionObj}
    {s' : Sess} {ex : PyExc}
    (h : handle_payment_failed s a = .err s' ex) : s' = s := by
  unfold handle_payment_failed at h
  split at h
  · injection h with h1 _; exact h1.symm
  · exact HRes.noConfusion h

theorem handle_payment_failed_ok_eq {s : Sess} {a : Option SessionObj}
    {s' : Sess} (h : handle_payment_failed s a = .ok s') : s' = s := by
  unfold handle_payment_failed at h
  split at h
  · exact HRes.noConfusion h
  · injection h with h1; exact h1.symm

theorem handle_subscription_payment_err_eq {s : Sess} {a : Option SessionObj}
    {s' : Sess} {ex : PyExc}
    (h : handle_subscription_payment s a = .err s' ex) : s' = s := by
  unfold handle_subscription_payment at h
  exact HRes.noConfusion h

theorem handle_subscription_payment_ok_eq {s : Sess} {a : Option SessionObj}
    {s' : Sess} (h : handle_subscription_payment s a = .ok s') : s' = s := by
  unfold handle_subscription_payment at h
  injection h with h1; exact h1.symm

/-- A handler that raises leaves the session exactly as it received it (in
this code every raise happens before the first session mutation). -/
theorem dispatch_err_eq {s : Sess} {t : String} {a : Option SessionObj}
    {s' : Sess} {ex : PyExc} {cs : List (String × Option SessionObj)}
    (h : dispatch s t a = (.err s' ex, cs)) : s' = s := by
  unfold dispatch at h
  split at h
  · injection h with h1 _; exact handle_checkout_completed_err_eq h1
  · split at h
    · injection h with h1 _; exact handle_payment_succeeded_err_eq h1
    · split at h
      · injection h with h1 _; exact handle_payment_failed_err_eq h1
      · split at h
        · injection h with h1 _; exact handle_subscription_payment_err_eq h1
        · injection h with h1 _; exact HRes.noConfusion h1

/-- No handler creates, deletes or rewrites event-log rows. -/
theorem dispatch_ok_staged_events {s : Sess} {t : String} {a : Option SessionObj}
    {s' : Sess} {cs : List (String × Option SessionObj)}
    (h : dispatch s t a = (.ok s', cs)) : s'.staged.events = s.staged.events := by
  unfold dispatch at h
  split at h
  · injection h with h1 _; exact handle_checkout_completed_ok_events h1
  · split at h
    · injection h with h1 _; rw [handle_payment_succeeded_ok_eq h1]
    · split at h
      · injection h with h1 _; rw [handle_payment_failed_ok_eq h1]
      · split at h
        · injection h with h1 _; rw [handle_subscription_payment_ok_eq h1]
        · injection h with h1 _
          injection h1 with h2
          rw [← h2]

/-- Every recorded handler invocation of a `process_event` call received the
type and the `data.object` payload of the event delivered to that call. -/
theorem dispatch_calls_eq {s : Sess} {t : String} {a : Option SessionObj}
    {hr : HRes} {cs : List (String × Option SessionObj)}
    (h : dispatch s t a = (hr, cs)) : cs = [] ∨ cs = [(t, a)] := by
  unfold dispatch at h
  split at h
  · injection h with _ h2; exact Or.inr h2.symm
  · split at h
    · injection h with _ h2; exact Or.inr h2.symm
    · split at h
      · injection h with _ h2; exact Or.inr h2.symm
      · split at h
        · injection h with _ h2; exact Or.inr h2.symm
        · injection h with _ h2; exact Or.inl h2.symm

end StripeCore

namespace StripeCore

/-- Every path through the attempt/exception machinery of lines 60–120 returns
a `(success, message)` pair, provided the persistent `event_log` object has a
backing durable row (which the caller guarantees: the object was obtained from
the committed row that raised the `IntegrityError`). -/
theorem attemptPhase_total (now : Nat) (db : DB) (e : StripeEvent)
    (event_id event_type : String) (persistent : Bool) (entryAttempts : Nat)
    (hpers : persistent = true → (lookupEvent db event_id).isSome = true) :
    ∃ r, attemptPhase now db e event_id event_type persistent entryAttempts = .ok r := by
  unfold attemptPhase
  dsimp only
  simp only [model_has_next_retry_at, Bool.false_eq_true, if_false, ite_self]
  split
  · exact ⟨_, rfl⟩
  · next sErr exc calls heq =>
      have hsess := dispatch_err_eq heq
      cases hp : persistent with
      | true =>
          obtain ⟨row, hrow⟩ := Option.isSome_iff_exists.mp (hpers hp)
          subst hp
          simp only [if_true]
          have hdur : (Sess.rollbackS sErr).durable = db := by
            rw [hsess]; rfl
          rw [hdur, hrow]
          split
          · rename_i habs
            exact Option.noConfusion habs
          · split <;> exact ⟨_, rfl⟩
      | false =>
          subst hp
          simp only [Bool.false_eq_true, if_false]
          split <;> exact ⟨_, rfl⟩

/-- Totality of `process_event`: on any input event and any database state
the call returns a `(success, message)` pair — no exception escapes as an
unhandled fault. -/
theorem processEvent_never_raises (now : Nat) (db : DB) (e : StripeEvent) :
    ∃ r, processEventE now db e = .ok r := by
  unfold processEventE
  split
  · exact ⟨_, rfl⟩
  · dsimp only
    split
    · next existing heq =>
        split
        · exact ⟨_, rfl⟩
        · exact attemptPhase_total _ _ _ _ _ _ _ (fun _ => by rw [heq]; rfl)
    · next heq =>
        exact attemptPhase_total _ _ _ _ _ _ _ (fun h => by cases h)

end StripeCore

namespace StripeCore

/-- Claim C1 — success terminality of the dedup: whenever the stored row for
the delivered event id already has `processed = true`, `process_event` returns
`(True, "Event already processed")`, invokes no effect handler, and leaves the
database (event log, user balances, credit-transaction ledger) exactly as it
was — the duplicate delivery repeats no side effect. -/
theorem claim_C1_success_terminality (now : Nat) (db : DB) (e : StripeEvent)
    (i t : String) (row : EventRow)
    (hid : e.eid = some i) (hi : i ≠ "") (hty : e.etype = some t) (ht : t ≠ "")
    (hrow : lookupEvent db i = some row) (hproc : row.processed = true) :
    processEventE now db e =
      .ok ⟨⟨db, db, []⟩, true, "Event already processed", []⟩ := by
  unfold processEventE
  rw [hid, hty]
  have hcond : ¬ (¬ pyTruthyStr (some i) = true ∨ ¬ pyTruthyStr (some t) = true) := by
    simp [pyTruthyStr, hi, ht]
  rw [if_neg hcond]
  dsimp only [Option.getD]
  rw [hrow]
  dsimp only
  rw [if_pos hproc]

/-- Witness for C1 at a concrete store: a processed `evt_1` row, a second
delivery of `evt_1`. -/
theorem claim_C1_success_terminality_witness :
    processEventE 7
      ⟨[⟨"evt_1", "checkout.session.completed",
          ⟨some "evt_1", some "checkout.session.completed", none⟩,
          true, 1, none, some 3, 2, none, false⟩],
        [⟨"u-1", some 100⟩], [⟨"u-1", 100, "Credit pack purchase - 100 credits"⟩]⟩
      ⟨some "evt_1", some "checkout.session.completed",
        some ⟨some "cs_1", some "u-1", none, some 100, none⟩⟩ =
    .ok ⟨⟨⟨[⟨"evt_1", "checkout.session.completed",
          ⟨some "evt_1", some "checkout.session.completed", none⟩,
          true, 1, none, some 3, 2, none, false⟩],
        [⟨"u-1", some 100⟩], [⟨"u-1", 100, "Credit pack purchase - 100 credits"⟩]⟩,
      ⟨[⟨"evt_1", "checkout.session.completed",
          ⟨some "evt_1", some "checkout.session.completed", none⟩,
          true, 1, none, some 3, 2, none, false⟩],
        [⟨"u-1", some 100⟩], [⟨"u-1", 100, "Credit pack purchase - 100 credits"⟩]⟩,
      []⟩, true, "Event already processed", []⟩ :=
  claim_C1_success_terminality 7 _ _ "evt_1" "checkout.session.completed" _
    rfl (by decide) rfl (by decide) rfl rfl

end StripeCore

namespace StripeCore

/-- Looking up a freshly inserted row after two in-place bookkeeping updates. -/
theorem lookupEvent_fresh_chain (db : DB) (i : String) (row0 : EventRow)
    (f g : EventRow → EventRow) (h0 : row0.stripe_event_id = i)
    (hf : ∀ r, (f r).stripe_event_id = r.stripe_event_id)
    (hg : ∀ r, (g r).stripe_event_id = r.stripe_event_id)
    (hnone : lookupEvent db i = none) :
    lookupEvent (updateEvent (updateEvent (insertEvent db row0) i f) i g) i =
      some (g (f row0)) := by
  have hb : (row0.stripe_event_id == i) = true := by rw [h0]; exact beq_self_eq_true i
  have hfb : ((f row0).stripe_event_id == i) = true := by rw [hf, h0]; exact beq_self_eq_true i
  rw [lookupEvent_updateEvent _ _ _ _ hg, lookupEvent_updateEvent _ _ _ _ hf,
      lookupEvent_insertEvent_of_none _ _ _ hnone, if_pos hb]
  simp only [Option.map_some']
  rw [if_pos hb, if_pos hfb]

/-- Claim C9 — unknown-type acknowledgment: a first delivery (no stored row)
of an event whose type has no registered handler is marked
`processed = true` with `processed_at` set and `error_message` null, with one
recorded attempt; no handler is invoked, the ledger (users, transactions) is
untouched, and the call returns success. -/
theorem claim_C9_unknown_type_acknowledged (now : Nat) (db : DB) (e : StripeEvent)
    (i t : String)
    (hid : e.eid = some i) (hi : i ≠ "") (hty : e.etype = some t) (ht : t ≠ "")
    (hunk : t ∉ handledTypes) (hnone : lookupEvent db i = none) :
    ∃ r, processEventE now db e = .ok r ∧ r.success = true ∧
      r.message = "Event processed successfully" ∧ r.handlerCalls = [] ∧
      r.sess.durable.users = db.users ∧ r.sess.durable.txns = db.txns ∧
      ∃ row2, lookupEvent r.sess.durable i = some row2 ∧
        row2.processed = true ∧ row2.processed_at = some now ∧
        row2.error_message = none ∧ row2.processing_attempts = 1 ∧
        row2.event_type = t ∧ row2.event_data = e ∧
        row2.next_retry_at = none ∧ row2.dead_letter = false := by
  simp only [handledTypes, List.mem_cons, List.not_mem_nil, or_false, not_or] at hunk
  obtain ⟨hne1, hne2, hne3, hne4⟩ := hunk
  unfold processEventE
  rw [hid, hty]
  rw [if_neg (by simp [pyTruthyStr, hi, ht])]
  dsimp only [Option.getD]
  rw [hnone]
  dsimp only
  unfold attemptPhase
  dsimp only
  simp only [model_has_next_retry_at, Bool.false_eq_true, if_false, ite_self]
  unfold dispatch
  rw [if_neg hne1, if_neg hne2, if_neg hne3, if_neg hne4]
  dsimp only
  refine ⟨_, rfl, rfl, rfl, rfl, rfl, rfl, ?_⟩
  refine ⟨⟨i, t, e, true, 1, none, some now, now, none, false⟩, ?_,
    rfl, rfl, rfl, rfl, rfl, rfl, rfl, rfl⟩
  apply lookupEvent_fresh_chain
  · rfl
  · intro r; rfl
  · intro r; rfl
  · exact hnone

end StripeCore

namespace StripeCore

theorem sameIdentity_refl (a : EventRow) : sameIdentity a a := ⟨rfl, rfl, rfl, rfl⟩

theorem sameIdentity_trans {a b c : EventRow}
    (h1 : sameIdentity a b) (h2 : sameIdentity b c) : sameIdentity a c :=
  ⟨h1.1.trans h2.1, h1.2.1.trans h2.2.1, h1.2.2.1.trans h2.2.2.1, h1.2.2.2.trans h2.2.2.2⟩

/-- An in-place update whose updater touches only bookkeeping fields leaves
the identity fields of the found row unchanged. -/
theorem lookupEvent_updateEvent_identity {db : DB} {i : String}
    {f : EventRow → EventRow} {row2 : EventRow}
    (h : lookupEvent (updateEvent db i f) i = some row2)
    (hpres : ∀ r, sameIdentity (f r) r) :
    ∃ row1, lookupEvent db i = some row1 ∧ sameIdentity row2 row1 := by
  rw [lookupEvent_updateEvent _ _ _ _ (fun r => (hpres r).1)] at h
  cases hl : lookupEvent db i with
  | none => rw [hl] at h; exact Option.noConfusion h
  | some row1 =>
      rw [hl] at h
      simp only [Option.map_some'] at h
      injection h with h2
      refine ⟨row1, rfl, ?_⟩
      rw [← h2]
      by_cases hc : (row1.stripe_event_id == i) = true
      · rw [if_pos hc]; exact hpres row1
      · rw [if_neg hc]; exact sameIdentity_refl row1

/-- Claim C10 — frame of a retry delivery: when a stored row for the id exists
with `processed = false`, `process_event` leaves the row's identity fields
(`stripe_event_id`, `event_type`, `event_data`, `created_at`) unchanged in
every durable outcome — only bookkeeping fields are mutated — and any handler
invocation receives the type and `data.object` payload of the newly delivered
event, not the stored `event_data`. -/
theorem claim_C10_retry_frame (now : Nat) (db : DB) (e : StripeEvent)
    (i t : String) (row : EventRow)
    (hid : e.eid = some i) (hi : i ≠ "") (hty : e.etype = some t) (ht : t ≠ "")
    (hrow : lookupEvent db i = some row) (hun : row.processed = false) :
    ∃ r, processEventE now db e = .ok r ∧
      (∀ c ∈ r.handlerCalls, c = (t, e.objectData)) ∧
      (∀ row2, lookupEvent r.sess.durable i = some row2 → sameIdentity row2 row) := by
  unfold processEventE
  rw [hid, hty]
  rw [if_neg (by simp [pyTruthyStr, hi, ht])]
  dsimp only [Option.getD]
  rw [hrow]
  dsimp only
  rw [if_neg (by simp [hun])]
  unfold attemptPhase
  dsimp only
  simp only [model_has_next_retry_at, Bool.false_eq_true, if_false, ite_self, if_true]
  split
  · next s3 calls heq =>
      refine ⟨_, rfl, ?_, ?_⟩
      · intro c hc
        rcases dispatch_calls_eq heq with h | h
        · rw [h] at hc; cases hc
        · rw [h] at hc; simpa using hc
      · intro row2 hlook
        dsimp only [Sess.commitS] at hlook
        obtain ⟨rowA, hA, hidA⟩ := lookupEvent_updateEvent_identity hlook
          (fun r => ⟨rfl, rfl, rfl, rfl⟩)
        rw [lookupEvent_congr_events (dispatch_ok_staged_events heq) i] at hA
        obtain ⟨rowB, hB, hidB⟩ := lookupEvent_updateEvent_identity hA
          (fun r => ⟨rfl, rfl, rfl, rfl⟩)
        rw [hrow] at hB
        injection hB with hB2
        rw [← hB2] at hidB
        exact sameIdentity_trans hidA hidB
  · next sErr exc calls heq =>
      have hsess := dispatch_err_eq heq
      have hdur : (Sess.rollbackS sErr).durable = db := by rw [hsess]; rfl
      have hstg : (Sess.rollbackS sErr).staged = db := by rw [hsess]; rfl
      rw [hdur, hrow]
      dsimp only
      rw [hstg]
      split
      · refine ⟨_, rfl, ?_, ?_⟩
        · intro c hc
          rcases dispatch_calls_eq heq with h | h
          · rw [h] at hc; cases hc
          · rw [h] at hc; simpa using hc
        · intro row2 hlook
          dsimp only [Sess.commitS] at hlook
          obtain ⟨rowA, hA, hidA⟩ := lookupEvent_updateEvent_identity hlook
            (fun r => by
              by_cases hc : (row.processing_attempts ≥ 5 ∧ model_has_dead_letter = true)
              · rw [if_pos hc]; exact ⟨rfl, rfl, rfl, rfl⟩
              · rw [if_neg hc]; exact ⟨rfl, rfl, rfl, rfl⟩)
          rw [hrow] at hA
          injection hA with hA2
          rw [← hA2] at hidA
          exact hidA
      · refine ⟨_, rfl, ?_, ?_⟩
        · intro c hc
          rcases dispatch_calls_eq heq with h | h
          · rw [h] at hc; cases hc
          · rw [h] at hc; simpa using hc
        · intro row2 hlook
          dsimp only [Sess.commitS] at hlook
          obtain ⟨rowA, hA, hidA⟩ := lookupEvent_updateEvent_identity hlook
            (fun r => by
              by_cases hc : (row.processing_attempts ≥ 5 ∧ model_has_dead_letter = true)
              · rw [if_pos hc]; exact ⟨rfl, rfl, rfl, rfl⟩
              · rw [if_neg hc]; exact ⟨rfl, rfl, rfl, rfl⟩)
          rw [hrow] at hA
          injection hA with hA2
          rw [← hA2] at hidA
          exact hidA

end StripeCore

namespace StripeCore

/-- Witness for C9: first delivery of `evt_9` with unregistered type
`custom.event` into a store holding one user and no events. -/
theorem claim_C9_unknown_type_acknowledged_witness :
    ∃ r, processEventE 5 ⟨[], [⟨"u-9", some 0⟩], []⟩
        ⟨some "evt_9", some "custom.event", none⟩ = .ok r ∧ r.success = true ∧
      r.message = "Event processed successfully" ∧ r.handlerCalls = [] ∧
      r.sess.durable.users = (⟨[], [⟨"u-9", some 0⟩], []⟩ : DB).users ∧
      r.sess.durable.txns = (⟨[], [⟨"u-9", some 0⟩], []⟩ : DB).txns ∧
      ∃ row2, lookupEvent r.sess.durable "evt_9" = some row2 ∧
        row2.processed = true ∧ row2.processed_at = some 5 ∧
        row2.error_message = none ∧ row2.processing_attempts = 1 ∧
        row2.event_type = "custom.event" ∧
        row2.event_data = ⟨some "evt_9", some "custom.event", none⟩ ∧
        row2.next_retry_at = none ∧ row2.dead_letter = false :=
  claim_C9_unknown_type_acknowledged 5 _ _ "evt_9" "custom.event"
    rfl (by decide) rfl (by decide) (by decide) rfl

/-- Witness for C10: a second delivery of unprocessed `evt_10` whose payload
differs from the stored `event_data`. -/
theorem claim_C10_retry_frame_witness :
    ∃ r, processEventE 3
        ⟨[⟨"evt_10", "payment_intent.succeeded",
            ⟨some "evt_10", some "payment_intent.succeeded", none⟩,
            false, 1, some "boom", none, 0, none, false⟩], [], []⟩
        ⟨some "evt_10", some "payment_intent.succeeded",
          some ⟨some "pi_X", none, none, none, none⟩⟩ = .ok r ∧
      (∀ c ∈ r.handlerCalls,
        c = ("payment_intent.succeeded", some ⟨some "pi_X", none, none, none, none⟩)) ∧
      (∀ row2, lookupEvent r.sess.durable "evt_10" = some row2 →
        sameIdentity row2 ⟨"evt_10", "payment_intent.succeeded",
          ⟨some "evt_10", some "payment_intent.succeeded", none⟩,
          false, 1, some "boom", none, 0, none, false⟩) :=
  claim_C10_retry_frame 3 _ _ "evt_10" "payment_intent.succeeded" _
    rfl (by decide) rfl (by decide) rfl rfl

/-- Claim C2 — refuted atomicity (code bug): processing a fresh, valid
`checkout.session.completed` event produces **two** commits in the one
attempt: `add_credits` (credits.py:16) commits in the middle of the
processor's transaction, producing a durable state in which the user has
already been credited (balance 100, a ledger entry written) while the event
row still has `processed = false`.  The claimed single-transaction-per-attempt
property — no reachable state with the ledger credited but the row not marked
processed — fails at this intermediate durable state. -/
theorem claim_C2_midattempt_commit :
    (commitTrace 0 ⟨[], [⟨"u-2", some 0⟩], []⟩
        ⟨some "evt_2", some "checkout.session.completed",
          some ⟨some "cs_2", some "u-2", none, some 100, some "pi_2"⟩⟩).map
      (fun d => ((findUser d "u-2").map UserRow.credits,
                 (lookupEvent d "evt_2").map EventRow.processed,
                 d.txns.length)) =
    [(some (some 100), some false, 1), (some (some 100), some true, 1)] := by decide

/-- Claim C3 — refuted dead-letter transition (code bug): a stored row that
already has `processing_attempts = 5` and fails again (the claimed transition
point) keeps `dead_letter = false`: the write at stripe_events.py:106–107 is
guarded by `hasattr(event_log, 'dead_letter')`, which is false because the
bound `StripeEventLog` model declares no such column — even though the call
returns the "failed after 5 attempts" message and logs a dead-letter mark.
(The attempt counter also stays at 5: the increment was rolled back.) -/
theorem claim_C3_dead_letter_never_set :
    (processEventE 10
        ⟨[⟨"evt_3", "checkout.session.completed",
            ⟨some "evt_3", some "checkout.session.completed",
              some ⟨some "cs_3", none, none, none, none⟩⟩,
            false, 5, some "old error", none, 0, none, false⟩], [], []⟩
        ⟨some "evt_3", some "checkout.session.completed",
          some ⟨some "cs_3", none, none, none, none⟩⟩).toOption.map
      (fun r => (r.success, r.message,
        (lookupEvent r.sess.durable "evt_3").map
          (fun w => (w.dead_letter, w.processed, w.processing_attempts)))) =
    some (false,
      "Event processing failed after 5 attempts: Missing user_id or credits in checkout session: cs_3",
      some (false, false, 5)) := by decide

/-- Claim C4 — refuted attempt-count persistence (code bug): one delivery of a
fresh event whose handler raises ends with **no stored row at all** — the
rollback at stripe_events.py:99 discards the uncommitted insert together with
the attempt increment, and the error-path commit at line 110 then persists
nothing (the pending object was expunged) — so the stored attempt count after
N = 1 failing attempts is not 1; it does not exist. -/
theorem claim_C4_attempt_count_lost :
    (processEventE 0 ⟨[], [], []⟩
        ⟨some "evt_4", some "checkout.session.completed",
          some ⟨some "cs_4", none, none, none, none⟩⟩).toOption.map
      (fun r => (r.success, r.message, r.sess.durable.events.length)) =
    some (false,
      "Event processing failed: Missing user_id or credits in checkout session: cs_4",
      0) := by decide

/-- Claim C5 — refuted backoff storage (code bug): on a retry attempt
(`processing_attempts` goes 1 → 2) the backoff `min(60·2^(k−2), 3600) = 60`
is computed (stripe_events.py:67, `backoffSeconds 2 = 60`), but the store at
line 70 is guarded by `hasattr(event_log, 'next_retry_at')`, false for the
bound model — so even on this fully successful attempt, whose transaction
commits, the durable `next_retry_at` remains null instead of `now + 60`. -/
theorem claim_C5_next_retry_not_stored :
    ((processEventE 50 ⟨[⟨"evt_5", "foo.custom",
          ⟨some "evt_5", some "foo.custom", none⟩,
          false, 1, some "boom", none, 0, none, false⟩], [], []⟩
        ⟨some "evt_5", some "foo.custom", none⟩).toOption.map
      (fun r => (r.success,
        (lookupEvent r.sess.durable "evt_5").map
          (fun w => (w.next_retry_at, w.processed, w.processing_attempts)))) =
      some (true, some (none, true, 2)) ∧ backoffSeconds 2 = 60) := by decide

/-- Claim C6 — refuted handler-scoped idempotency (code bug): invoking the
checkout handler twice with the same purchase reference `cs_6` double-applies
the grant — the balance goes 0 → 200 and two ledger rows are appended —
because `add_credits` (credits.py:10–18) accepts the
`idempotency_key = "checkout_cs_6"` argument but never reads it, despite the
call site's "with idempotency protection" comment. -/
theorem claim_C6_double_apply :
    runCheckoutTwice
      ⟨⟨[], [⟨"u-6", some 0⟩], []⟩, ⟨[], [⟨"u-6", some 0⟩], []⟩, []⟩
      (some ⟨some "cs_6", some "u-6", none, some 100, none⟩) "u-6" =
    some (some (some 200), 2) := by decide

/-- Claim C7 counterexample: the claim says the handler raises a validation
error when the extracted `credit_amount` is non-positive, but with
`credits = -5` (non-positive) and a resolvable user the handler raises
nothing and proceeds to the grant: the balance drops 10 → 5 and a ledger
entry for −5 is appended — Python's `not credits` only catches `0`. -/
theorem claim_C7_counterexample :
    runCheckoutOnce
      ⟨⟨[], [⟨"u-7", some 10⟩], []⟩, ⟨[], [⟨"u-7", some 10⟩], []⟩, []⟩
      (some ⟨some "cs_7", some "u-7", none, some (-5), none⟩) "u-7" =
    some (some (some 5), 1) := by decide

end StripeCore

namespace StripeCore

/-- Claim C7 as amended: the checkout handler raises a validation error
**iff** the extracted `user_id` is falsy (missing or empty), the extracted
`credit_amount` is missing or **zero** — not "non-positive": negative amounts
pass the `not credits` check (see the counterexample) — or `user_id` does not
resolve to a user; for every other payload the handler returns normally and
appends exactly one grant to the ledger. -/
theorem claim_C7_amended_validation (s : Sess) (sd : SessionObj) :
    ((∃ s' ex, handle_checkout_completed s (some sd) = .err s' ex) ↔
      (pyTruthyStr (pyOr sd.client_reference_id sd.metadata_user_id) = false ∨
       sd.metadata_credits.getD 0 = 0 ∨
       ∃ u, pyOr sd.client_reference_id sd.metadata_user_id = some u ∧
         findUser s.staged u = none)) ∧
    (∀ s2, handle_checkout_completed s (some sd) = .ok s2 →
      ∃ txn, s2.staged.txns = s.staged.txns ++ [txn]) := by
  constructor
  · constructor
    · rintro ⟨s', ex, herr⟩
      unfold handle_checkout_completed at herr
      dsimp only at herr
      split at herr
      · rename_i hpo
        left; rw [hpo]; rfl
      · rename_i u hpo
        split at herr
        · rename_i hcond
          rcases hcond with hu | hc
          · left; rw [hpo, hu]; rfl
          · right; left; exact hc
        · split at herr
          · rename_i hfind
            right; right; exact ⟨u, hpo, hfind⟩
          · rename_i w hfind
            unfold add_credits at herr
            split at herr
            · rename_i hnone
              rw [hfind] at hnone; exact Option.noConfusion hnone
            · exact HRes.noConfusion herr
    · intro hcond
      unfold handle_checkout_completed
      dsimp only
      rcases hcond with hfal | hzero | ⟨u, hpo, hfind⟩
      · cases hpo : pyOr sd.client_reference_id sd.metadata_user_id with
        | none => exact ⟨s, _, rfl⟩
        | some u =>
            rw [hpo] at hfal
            have hu : u = "" := by
              by_contra hne
              simp [pyTruthyStr, hne] at hfal
            dsimp only
            rw [if_pos (Or.inl hu)]
            exact ⟨s, _, rfl⟩
      · cases hpo : pyOr sd.client_reference_id sd.metadata_user_id with
        | none => exact ⟨s, _, rfl⟩
        | some u =>
            dsimp only
            rw [if_pos (Or.inr hzero)]
            exact ⟨s, _, rfl⟩
      · rw [hpo]
        dsimp only
        by_cases hcond2 : (u = "" ∨ sd.metadata_credits.getD 0 = 0)
        · rw [if_pos hcond2]; exact ⟨s, _, rfl⟩
        · rw [if_neg hcond2, hfind]
          exact ⟨s, _, rfl⟩
  · intro s2 hok
    unfold handle_checkout_completed at hok
    dsimp only at hok
    split at hok
    · exact HRes.noConfusion hok
    · split at hok
      · exact HRes.noConfusion hok
      · split at hok
        · exact HRes.noConfusion hok
        · exact add_credits_ok_txns hok

/-- Witness for the amended C7: a payload with `credits = 0` (missing/zero
case) makes the handler raise. -/
theorem claim_C7_amended_validation_witness :
    ∃ s' ex, handle_checkout_completed
      ⟨⟨[], [⟨"u-7", some 10⟩], []⟩, ⟨[], [⟨"u-7", some 10⟩], []⟩, []⟩
      (some ⟨some "cs_7", some "u-7", none, some 0, none⟩) = .err s' ex :=
  (claim_C7_amended_validation
      ⟨⟨[], [⟨"u-7", some 10⟩], []⟩, ⟨[], [⟨"u-7", some 10⟩], []⟩, []⟩
      ⟨some "cs_7", some "u-7", none, some 0, none⟩).1.mpr
    (Or.inr (Or.inl (by decide)))

end StripeCore

namespace StripeCore

/-- Looking up the row after an in-place update keyed by the id under which it
was found. -/
theorem lookupEvent_updateEvent_found {db : DB} {i : String}
    {f : EventRow → EventRow} {row : EventRow}
    (hrow : lookupEvent db i = some row)
    (hf : ∀ r, (f r).stripe_event_id = r.stripe_event_id) :
    lookupEvent (updateEvent db i f) i = some (f row) := by
  have hrow' : db.events.find? (fun r => r.stripe_event_id == i) = some row := hrow
  have hp : (row.stripe_event_id == i) = true := by
    have := List.find?_some hrow'
    simpa using this
  rw [lookupEvent_updateEvent _ _ _ _ hf, hrow]
  simp only [Option.map_some']
  rw [if_pos hp]

/-- The failure-path update of stripe_events.py:102–110 (stage
`error_message = str(e)`, dead-letter write skipped by the `hasattr` guard)
records the exception text on the found row. -/
theorem lookupEvent_update_err {db : DB} {i : String} {row : EventRow}
    (m : String) (k : Nat) (hrow : lookupEvent db i = some row) :
    ∃ row2, lookupEvent (updateEvent db i (fun r =>
        let r1 := { r with error_message := some m }
        if k ≥ 5 ∧ model_has_dead_letter = true then { r1 with dead_letter := true }
        else r1)) i = some row2 ∧ row2.error_message = some m := by
  have hf : ∀ r : EventRow, ((fun (r : EventRow) =>
      let r1 := { r with error_message := some m }
      if k ≥ 5 ∧ model_has_dead_letter = true then { r1 with dead_letter := true }
      else r1) r).stripe_event_id = r.stripe_event_id := by
    intro r
    by_cases hc : (k ≥ 5 ∧ model_has_dead_letter = true) <;> simp [hc]
  refine ⟨_, lookupEvent_updateEvent_found hrow hf, ?_⟩
  by_cases hc : (k ≥ 5 ∧ model_has_dead_letter = true) <;> simp [hc]

/-- Exception conversion on the attempt path of lines 60–120: the call always
returns; when it returns failure, the message carries the caught exception's
text (plain or "after 5 attempts" form), and — only when the `event_log`
object was persistent, i.e. a committed row for the id already existed — the
durable row records the exception in `error_message`. -/
theorem attemptPhase_spec (now : Nat) (db : DB) (e : StripeEvent)
    (event_id event_type : String) (persistent : Bool) (entryAttempts : Nat)
    (hpers : persistent = true → (lookupEvent db event_id).isSome = true) :
    ∃ r, attemptPhase now db e event_id event_type persistent entryAttempts = .ok r ∧
      (r.success = false →
        ∃ exc : PyExc,
          (r.message = "Event processing failed: " ++ pyStr exc ∨
           r.message = "Event processing failed after 5 attempts: " ++ pyStr exc) ∧
          (persistent = true →
            ∃ row2, lookupEvent r.sess.durable event_id = some row2 ∧
              row2.error_message = some (pyStr exc))) := by
  unfold attemptPhase
  dsimp only
  simp only [model_has_next_retry_at, Bool.false_eq_true, if_false, ite_self]
  split
  · next s3 calls heq =>
      refine ⟨_, rfl, ?_⟩
      intro h
      exact Bool.noConfusion h
  · next sErr exc calls heq =>
      have hsess := dispatch_err_eq heq
      cases hp : persistent with
      | true =>
          obtain ⟨row, hrow⟩ := Option.isSome_iff_exists.mp (hpers hp)
          subst hp
          simp only [if_true]
          have hdur : (Sess.rollbackS sErr).durable = db := by rw [hsess]; rfl
          have hstg : (Sess.rollbackS sErr).staged = db := by rw [hsess]; rfl
          rw [hdur, hrow]
          dsimp only
          rw [hstg]
          split
          · refine ⟨_, rfl, ?_⟩
            intro _
            refine ⟨exc, Or.inr rfl, ?_⟩
            intro _
            exact lookupEvent_update_err (pyStr exc) row.processing_attempts hrow
          · refine ⟨_, rfl, ?_⟩
            intro _
            refine ⟨exc, Or.inl rfl, ?_⟩
            intro _
            exact lookupEvent_update_err (pyStr exc) row.processing_attempts hrow
      | false =>
          subst hp
          simp only [Bool.false_eq_true, if_false]
          split
          · refine ⟨_, rfl, ?_⟩
            intro _
            exact ⟨exc, Or.inr rfl, fun h => h.elim⟩
          · refine ⟨_, rfl, ?_⟩
            intro _
            exact ⟨exc, Or.inl rfl, fun h => h.elim⟩

/-- Claim C8 counterexample: the claim says every handler exception is
converted into **stored failure state on the row** plus a returned
`(false, message)` pair.  At a fresh `evt_8` whose checkout handler raises,
the exception is indeed caught and `(false, message)` returned — but the
event log afterwards holds **zero** rows: the rollback discarded the
uncommitted insert and the error-path commit persisted nothing, so no failure
state is stored on any row, refuting the stored-failure-state conjunct. -/
theorem claim_C8_counterexample :
    (processEventE 0 ⟨[], [], []⟩
        ⟨some "evt_8", some "checkout.session.completed",
          some ⟨some "cs_8", none, none, none, none⟩⟩).toOption.map
      (fun r => (r.success, r.message, r.sess.durable.events.length)) =
    some (false,
      "Event processing failed: Missing user_id or credits in checkout session: cs_8",
      0) := by decide

/-- Claim C8 as amended — exception boundary: `process_event` never raises on
any input event and database state; every failure it reports is a returned
`(false, message)` pair whose message is either the malformed-event rejection
or carries the caught exception's text; and the failure state is durably
stored on the row (`error_message` set to the exception text) whenever a
committed row for the id already existed — for a first delivery the rollback
discards the row and nothing is stored (see the counterexample). -/
theorem claim_C8_amended_exception_boundary (now : Nat) (db : DB) (e : StripeEvent) :
    ∃ r, processEventE now db e = .ok r ∧
      (r.success = false →
        r.message = "Invalid event data - missing id or type" ∨
        ∃ exc : PyExc,
          (r.message = "Event processing failed: " ++ pyStr exc ∨
           r.message = "Event processing failed after 5 attempts: " ++ pyStr exc) ∧
          ∀ row, lookupEvent db (e.eid.getD "") = some row →
            ∃ row2, lookupEvent r.sess.durable (e.eid.getD "") = some row2 ∧
              row2.error_message = some (pyStr exc)) := by
  unfold processEventE
  split
  · exact ⟨_, rfl, fun _ => Or.inl rfl⟩
  · dsimp only
    split
    · next existing heq =>
        split
        · refine ⟨_, rfl, ?_⟩
          intro h
          exact Bool.noConfusion h
        · obtain ⟨r, hr, hspec⟩ := attemptPhase_spec now db e (e.eid.getD "")
            (e.etype.getD "") true existing.processing_attempts
            (fun _ => by rw [heq]; rfl)
          refine ⟨r, hr, ?_⟩
          intro hfail
          obtain ⟨exc, hmsg, hstore⟩ := hspec hfail
          exact Or.inr ⟨exc, hmsg, fun row hrow => hstore rfl⟩
    · next heq =>
        obtain ⟨r, hr, hspec⟩ := attemptPhase_spec now db e (e.eid.getD "")
          (e.etype.getD "") false 0 (fun h => Bool.noConfusion h)
        refine ⟨r, hr, ?_⟩
        intro hfail
        obtain ⟨exc, hmsg, _⟩ := hspec hfail
        refine Or.inr ⟨exc, hmsg, ?_⟩
        intro row hrow
        rw [heq] at hrow
        exact Option.noConfusion hrow

/-- Witness for the amended C8 at the counterexample's input: a fresh failing
checkout event. -/
theorem claim_C8_amended_exception_boundary_witness :
    ∃ r, processEventE 0 ⟨[], [], []⟩
        ⟨some "evt_8", some "checkout.session.completed",
          some ⟨some "cs_8", none, none, none, none⟩⟩ = .ok r ∧
      (r.success = false →
        r.message = "Invalid event data - missing id or type" ∨
        ∃ exc : PyExc,
          (r.message = "Event processing failed: " ++ pyStr exc ∨
           r.message = "Event processing failed after 5 attempts: " ++ pyStr exc) ∧
          ∀ row, lookupEvent ⟨[], [], []⟩
              ((⟨some "evt_8", some "checkout.session.completed",
                some ⟨some "cs_8", none, none, none, none⟩⟩ : StripeEvent).eid.getD "")
              = some row →
            ∃ row2, lookupEvent r.sess.durable
              ((⟨some "evt_8", some "checkout.session.completed",
                some ⟨some "cs_8", none, none, none, none⟩⟩ : StripeEvent).eid.getD "")
              = some row2 ∧ row2.error_message = some (pyStr exc)) :=
  claim_C8_amended_exception_boundary 0 ⟨[], [], []⟩
    ⟨some "evt_8", some "checkout.session.completed",
      some ⟨some "cs_8", none, none, none, none⟩⟩

end StripeCore
